import Mathlib

/-!
Verification of the MRC/SRF execution core against its specification.

The C++ sources are shallowly embedded: the router operators from
`include/mrc/node/operators/router.hpp`, the runnable run loop and state
machine from the same header, the normalized control-plane state from
`src/internal/control_plane/state/root_state.cpp`, and the thread-engine
factory from `src/internal/runnable/thread_engines.cpp`.
-/

namespace Mrc

/-- Channel status values from `mrc/channel/status.hpp`: the results of
`await_write` / `await_read`. -/
inductive Status where
  | success
  | closed
  | error
  | timeout
deriving DecidableEq, Repr

/-- A router with a key function and a convert function, as in
`Router<KeyT, InputT, OutputT>` (the specialization with distinct types)
together with `LambdaRouter`.  A C++ function that may throw is embedded as
an `Except String` computation; an exception carries its `what()` string. -/
structure Router (K T U : Type) where
  keyFn : T → Except String K
  convertFn : T → Except String U

variable {K T U : Type}

/-- Modelled from the spec: `MultiSourceProperties::get_writable_edge` (declared
outside the provided sources) looks up the bound downstream edge for a key and
throws when no downstream is bound, which the spec words as "if no downstream
bound for key, the router fails the item with `error`".  A bound edge is
embedded as the pure function from the written value to the `await_write`
status. -/
def get_writable_edge (edges : K → Option (U → Status)) (key : K) :
    Except String (U → Status) :=
  match edges key with
  | some e => Except.ok e
  | none => Except.error "no edge found for key"

/-- `Router::on_next` (distinct-type specialization, router.hpp lines
105-118): the try-block computes the key, converts the value, then
`await_write`s on the selected downstream; a throw at any of the three steps
falls to the catch-all handler, which logs and returns
`channel::Status::error`.  The second component of the result records every
`await_write` attempt as a `(key, value)` pair. -/
def Router.on_next (r : Router K T U) (edges : K → Option (U → Status))
    (data : T) : Status × List (K × U) :=
  match r.keyFn data with
  | Except.error _ => (Status.error, [])
  | Except.ok key =>
    match r.convertFn data with
    | Except.error _ => (Status.error, [])
    | Except.ok output =>
      match get_writable_edge edges key with
      | Except.error _ => (Status.error, [])
      | Except.ok edge => (edge output, [(key, output)])

/-- `StaticRouterBase::process_one` (router.hpp lines 400-411), which is also
the body of the same-type `Router::on_next` specialization: compute the key
and `await_write` the unconverted value; the catch-all handler returns
`channel::Status::error`. -/
def process_one (keyFn : T → Except String K)
    (edges : K → Option (T → Status)) (data : T) : Status × List (K × T) :=
  match keyFn data with
  | Except.error _ => (Status.error, [])
  | Except.ok key =>
    match get_writable_edge edges key with
    | Except.error _ => (Status.error, [])
    | Except.ok edge => (edge data, [(key, data)])

/-! Stateful view of the downstream channels: for each key, the list of values
delivered so far to that downstream, in order.  An `await_write` on an open,
non-full buffered channel appends the value and returns `success`. -/

/-- Per-key downstream channel contents. -/
def Chans (K U : Type) : Type := K → List U

/-- Append a value to the channel of one key, leaving the others unchanged. -/
def chanWrite [DecidableEq K] (chans : Chans K U) (key : K) (v : U) : Chans K U :=
  fun j => if j = key then chans j ++ [v] else chans j

/-- `Router::on_next` with the downstream edges of the bound keys backed by
buffered channels: the item is appended to the channel of its key when the key
is bound, and the catch-all handler turns an unbound key or a thrown exception
into `Status.error` with the channels untouched. -/
def Router.step [DecidableEq K] (r : Router K T U) (bound : List K)
    (chans : Chans K U) (data : T) : Chans K U × Status :=
  match r.keyFn data with
  | Except.error _ => (chans, Status.error)
  | Except.ok key =>
    match r.convertFn data with
    | Except.error _ => (chans, Status.error)
    | Except.ok out =>
      if key ∈ bound then (chanWrite chans key out, Status.success)
      else (chans, Status.error)

/-- Drive a sequence of upstream pushes through the router, as the upstream
source does to a component router. -/
def Router.runList [DecidableEq K] (r : Router K T U) (bound : List K) :
    Chans K U → List T → Chans K U
  | chans, [] => chans
  | chans, d :: rest => Router.runList r bound (r.step bound chans d).1 rest

/-- `TaggedRouter<KeyT, T>` (router.hpp lines 204-223): a router over pairs
whose key function returns the first component and whose convert function
moves out the second component. -/
def taggedRouter (K T : Type) : Router K (K × T) T where
  keyFn := fun data => Except.ok data.fst
  convertFn := fun data => Except.ok data.snd

/-! Dynamic routers.  There are two distinct shapes in router.hpp:
`RouterBase` (lines 44-92), whose `get_source` manufactures a fresh
`DownstreamEdge` for any key and whose `drop_source` releases the edge
connection; and `DynamicRouterComponent` (lines 225-318), which keeps a
`m_downstreams` accessor map fixed at construction next to the
`MultiSourceProperties` edge connections. -/

/-- `RouterBase::get_source`: unconditionally returns a `DownstreamEdge`
accessor for the requested key (modelled by the key it carries); no check, no
failure. -/
def routerBase_get_source (key : K) : Except String K :=
  Except.ok key

/-- `DownstreamEdge::set_writable_edge_handle` →
`MultiSourceProperties::make_edge_connection`: modelled from the spec — binding
the accessor installs the writable edge for its key in the edge map. -/
def make_edge_connection [DecidableEq K] (edges : K → Option (U → Status))
    (key : K) (w : U → Status) : K → Option (U → Status) :=
  fun j => if j = key then some w else edges j

/-- `RouterBase::drop_source` →
`MultiSourceProperties::release_edge_connection`: modelled from the spec —
releasing a key removes its writable edge from the edge map. -/
def release_edge_connection [DecidableEq K] (edges : K → Option (U → Status))
    (key : K) : K → Option (U → Status) :=
  fun j => if j = key then none else edges j

/-- `DynamicRouterComponent<KeyT, InputT>`: the key function, the keys present
in the `m_downstreams` accessor map, and the edge connections held by
`MultiSourceProperties` (a bound edge is the status function of its
`await_write`). -/
structure DynamicRouterComponent (K T : Type) where
  keyFn : T → Except String K
  downstreams : List K
  edges : K → Option (T → Status)

/-- `DynamicRouterComponent::get_source`: `m_downstreams.at(key)` — returns the
stored accessor (modelled by its key) or throws `std::out_of_range` when the
key is not in the map. -/
def DynamicRouterComponent.get_source [DecidableEq K]
    (r : DynamicRouterComponent K T) (key : K) : Except String K :=
  if key ∈ r.downstreams then Except.ok key else Except.error "map::at"

/-- `DynamicRouterComponent::has_source`: `m_downstreams.contains(key)`. -/
def DynamicRouterComponent.has_source [DecidableEq K]
    (r : DynamicRouterComponent K T) (key : K) : Bool :=
  key ∈ r.downstreams

/-- `DynamicRouterComponent::drop_source`: erases the key from
`m_downstreams`; the `release_writable_edge` call is commented out in the
source, so the edge map is left unchanged. -/
def DynamicRouterComponent.drop_source [DecidableEq K]
    (r : DynamicRouterComponent K T) (key : K) : DynamicRouterComponent K T :=
  { r with downstreams := r.downstreams.erase key }

/-- `DynamicRouterComponent::on_next`: compute the key, look up the writable
edge in the `MultiSourceProperties` edge map (not in `m_downstreams`) and
`await_write`; the catch-all handler returns `Status.error`. -/
def DynamicRouterComponent.on_next [DecidableEq K]
    (r : DynamicRouterComponent K T) (chans : Chans K T) (data : T) :
    Chans K T × Status :=
  match r.keyFn data with
  | Except.error _ => (chans, Status.error)
  | Except.ok key =>
    match r.edges key with
    | some wr => (chanWrite chans key data, wr data)
    | none => (chans, Status.error)

/-! The runnable variant of the static router:
`StaticRouterRunnableBase::run` (router.hpp lines 487-513) and
`StaticRouterRunnableBase::on_state_update` (lines 518-534). -/

/-- One upstream `await_read` outcome: either an item was dequeued with
`success`, or the read finished with a non-success status (`closed` after the
upstream released its edge, or `error` / `timeout`). -/
inductive ReadEvent (T : Type) where
  | item (t : T)
  | done (s : Status)

/-- `process_one` against channel-backed downstream edges: the status of the
write and the new channel contents.  Mirrors the try/catch of
`StaticRouterBase::process_one`. -/
def process_one_chans [DecidableEq K] (keyFn : T → Except String K)
    (edges : K → Option (T → Status)) (chans : Chans K T) (data : T) :
    Status × Chans K T :=
  match keyFn data with
  | Except.error _ => (Status.error, chans)
  | Except.ok key =>
    match edges key with
    | some wr => (wr data, chanWrite chans key data)
    | none => (Status.error, chans)

/-- The while loop of `StaticRouterRunnableBase::run`:

    while (!m_stop_source.stop_requested() &&
           (read_status = await_read(data)) == success &&
           write_status == success)
        write_status = process_one(std::move(data));

`stop i` tells whether the stop token is observed as requested at the loop
check of iteration `i`; `reads` is the upstream channel (an exhausted list
reads as `closed`).  `readS` and `writeS` are the current values of the two
status variables (`read_status` is uninitialized before the first read, hence
an explicit argument).  Returns the final `(read_status, write_status)` pair
and the downstream channel contents. -/
def runLoop [DecidableEq K] (keyFn : T → Except String K)
    (edges : K → Option (T → Status)) (stop : Nat → Bool) :
    Nat → Status → Status → Chans K T → List (ReadEvent T) →
    Status × Status × Chans K T
  | i, readS, writeS, chans, reads =>
    if stop i then (readS, writeS, chans)
    else
      match reads with
      | [] => (Status.closed, writeS, chans)
      | ReadEvent.done s :: _ => (s, writeS, chans)
      | ReadEvent.item t :: rest =>
        if writeS = Status.success then
          let p := process_one_chans keyFn edges chans t
          runLoop keyFn edges stop (i + 1) Status.success p.1 p.2 rest
        else (Status.success, writeS, chans)

/-- The two `MrcRuntimeError` exits of `run`: "Failed to read from upstream"
and "Failed to write to downstream". -/
inductive RunFailure where
  | readFailed
  | writeFailed
deriving DecidableEq, Repr

/-- Everything observable after `run` returns or throws. -/
structure RunOutcome (K T : Type) where
  readStatus : Status
  writeStatus : Status
  chans : Chans K T
  edgesAfter : K → Option (T → Status)
  raised : Option RunFailure

/-- `StaticRouterRunnableBase::run`: the loop, then
`release_edge_connections` (unconditionally dropping every downstream edge),
then the check of `read_status` and, after it, of `write_status`, each
throwing a `MrcRuntimeError` on `error`. -/
def StaticRouterRunnable.run [DecidableEq K] (keyFn : T → Except String K)
    (edges : K → Option (T → Status)) (stop : Nat → Bool) (readS0 : Status)
    (reads : List (ReadEvent T)) : RunOutcome K T :=
  { readStatus :=
      (runLoop keyFn edges stop 0 readS0 Status.success (fun _ => []) reads).1
    writeStatus :=
      (runLoop keyFn edges stop 0 readS0 Status.success (fun _ => []) reads).2.1
    chans :=
      (runLoop keyFn edges stop 0 readS0 Status.success (fun _ => []) reads).2.2
    edgesAfter := fun _ => none
    raised :=
      if (runLoop keyFn edges stop 0 readS0 Status.success (fun _ => []) reads).1 =
          Status.error then
        some RunFailure.readFailed
      else if (runLoop keyFn edges stop 0 readS0 Status.success
          (fun _ => []) reads).2.1 = Status.error then
        some RunFailure.writeFailed
      else none }

/-- `Runnable::State` from `mrc/runnable/runnable.hpp`. -/
inductive RunnableState where
  | Init
  | Queued
  | Running
  | Stop
  | Kill
  | Completed
deriving DecidableEq, Repr

/-- `StaticRouterRunnableBase::on_state_update`: acts on the stop token
(whether `m_stop_source` has stop requested).  `Stop` does nothing (the
`request_stop` call is commented out: wait for the upstream channel to return
closed), `Kill` requests stop, the default branch does nothing. -/
def on_state_update (stopRequested : Bool) (state : RunnableState) : Bool :=
  match state with
  | RunnableState.Stop => stopRequested
  | RunnableState.Kill => true
  | _ => stopRequested

/-! Normalized control-plane state, from
`src/internal/control_plane/state/root_state.cpp`. -/

/-- Failure modes of a cross-reference lookup.  `outOfRange` is the
`std::out_of_range` exception thrown by `std::map::at`; `abortDiag` is a
DCHECK-style process abort carrying a diagnostic message (the behavior of the
commented-out variant of the macro). -/
inductive Failure where
  | outOfRange
  | abortDiag (msg : String)
deriving DecidableEq, Repr

/-- Does a lookup result abort the process with a diagnostic?  (As opposed to
returning a value or throwing a catchable exception.) -/
def exceptAborts {V : Type} : Except Failure V → Bool
  | Except.error (Failure.abortDiag _) => true
  | _ => false

variable {V : Type}

/-- `MAP_AT_WITH_CHECK(map_obj, id)` as the source defines it (root_state.cpp
line 30): plain `map_obj.at(id)`, i.e. the value when present and a thrown
`std::out_of_range` when absent. -/
def map_at_with_check (m : Nat → Option V) (id : Nat) : Except Failure V :=
  match m id with
  | some v => Except.ok v
  | none => Except.error Failure.outOfRange

/-- Modelled from the spec: the claim's reading of the lookup, under which a
missing id aborts with a diagnostic naming the map and the id (the DCHECK
variant commented out at root_state.cpp lines 20-25).  Kept for comparison
with `map_at_with_check`. -/
def map_at_spec_abort (mapName : String) (m : Nat → Option V) (id : Nat) :
    Except Failure V :=
  match m id with
  | some v => Except.ok v
  | none =>
    Except.error (Failure.abortDiag ("Inconsistent state! " ++ mapName ++ " is missing ID"))

/-- The fields of `protos::Worker` used by the accessors. -/
structure WorkerMsg where
  id : Nat
  executor_id : Nat
  assigned_segment_ids : List Nat
deriving DecidableEq, Repr

/-- The fields of `protos::Executor` used by the accessors. -/
structure ExecutorMsg where
  id : Nat
  worker_ids : List Nat
  assigned_pipeline_ids : List Nat
deriving DecidableEq, Repr

/-- The fields of `protos::SegmentInstance` used by the accessors. -/
structure SegmentInstanceMsg where
  id : Nat
  executor_id : Nat
  pipeline_instance_id : Nat
  worker_id : Nat
deriving DecidableEq, Repr

/-- The id-keyed maps of `ControlPlaneNormalizedState` that the modelled
accessors index (`m_root_state->…`). -/
structure NormalizedState where
  executors : Nat → Option ExecutorMsg
  workers : Nat → Option WorkerMsg
  pipeline_instances : Nat → Option Nat
  segment_instances : Nat → Option SegmentInstanceMsg

/-- `Worker::executor` (root_state.cpp lines 252-255):
`MAP_AT_WITH_CHECK(m_root_state->executors, this->executor_id())`. -/
def Worker.executor (s : NormalizedState) (w : WorkerMsg) :
    Except Failure ExecutorMsg :=
  map_at_with_check s.executors w.executor_id

/-- The loop shared by the child-map accessors (`Executor::workers`,
`Executor::assigned_pipelines`, `PipelineInstance::segments`, …): for each id
of the id list, insert `(id, MAP_AT_WITH_CHECK(map, id))`; the first missing
id throws and unwinds the partially built map. -/
def lookupAll (m : Nat → Option V) : List Nat → Except Failure (List (Nat × V))
  | [] => Except.ok []
  | i :: rest =>
    match map_at_with_check m i with
    | Except.error f => Except.error f
    | Except.ok v =>
      match lookupAll m rest with
      | Except.error f => Except.error f
      | Except.ok l => Except.ok ((i, v) :: l)

/-- `Executor::workers` (root_state.cpp lines 194-204): builds the child map
by looking up each id of `worker_ids` with `MAP_AT_WITH_CHECK`. -/
def Executor.workers (s : NormalizedState) (e : ExecutorMsg) :
    Except Failure (List (Nat × WorkerMsg)) :=
  lookupAll s.workers e.worker_ids

/-- `SegmentInstance::pipeline_instance` (root_state.cpp lines 532-535):
`MAP_AT_WITH_CHECK(m_root_state->pipeline_instances, pipeline_instance_id)`. -/
def SegmentInstance.pipeline_instance (s : NormalizedState)
    (si : SegmentInstanceMsg) : Except Failure Nat :=
  map_at_with_check s.pipeline_instances si.pipeline_instance_id

/-- `SegmentInstance::worker` (root_state.cpp lines 527-530). -/
def SegmentInstance.worker (s : NormalizedState) (si : SegmentInstanceMsg) :
    Except Failure WorkerMsg :=
  map_at_with_check s.workers si.worker_id

/-! State-wrapper equality and the `ResourceState` list accessors. -/

/-- The fields of `protos::ResourceState` (dependees and dependers are
`ResourceDefinition` entries, modelled by their ids). -/
structure ResourceStateMsg where
  requested_status : Nat
  actual_status : Nat
  dependees : List Nat
  dependers : List Nat
deriving DecidableEq, Repr

/-- `google::protobuf::util::MessageDifferencer::Equals`: field-by-field
structural equality of the two messages. -/
def messageDifferencerEquals (a b : ResourceStateMsg) : Bool :=
  a.requested_status == b.requested_status &&
  a.actual_status == b.actual_status &&
  a.dependees == b.dependees &&
  a.dependers == b.dependers

/-- A `ControlPlaneStateBase` wrapper object: a distinct C++ object identity
(`objId`) holding a reference to its underlying protobuf message. -/
structure StateWrapper where
  objId : Nat
  m_internal_message : ResourceStateMsg
deriving DecidableEq, Repr

/-- `ControlPlaneStateBase::operator==` (root_state.cpp lines 34-49): returns
`MessageDifferencer::Equals(m_internal_message, other.m_internal_message)`. -/
def ControlPlaneStateBase.operatorEq (a b : StateWrapper) : Bool :=
  messageDifferencerEquals a.m_internal_message b.m_internal_message

/-- The two function-local `static` vectors backing
`ResourceState::dependees()` and `ResourceState::dependers()`. -/
structure StaticVectors where
  dependees_vector : List Nat
  dependers_vector : List Nat
deriving DecidableEq, Repr

/-- Which static vector a returned reference aliases. -/
inductive VecRef where
  | dependeesRef
  | dependersRef
deriving DecidableEq, Repr

/-- Read the contents a reference currently observes. -/
def readRef (st : StaticVectors) : VecRef → List Nat
  | VecRef.dependeesRef => st.dependees_vector
  | VecRef.dependersRef => st.dependers_vector

/-- `ResourceState::dependees` (root_state.cpp lines 158-166): clear the
static vector, push each entry of `m_message.dependees()`, and return a
reference to the static vector. -/
def ResourceState.dependees (m : ResourceStateMsg) (st : StaticVectors) :
    VecRef × StaticVectors :=
  let refilled := m.dependees.foldl (fun acc d => acc ++ [d]) []
  (VecRef.dependeesRef, { st with dependees_vector := refilled })

/-- `ResourceState::dependers` (root_state.cpp lines 168-176): same shape on
the other static vector. -/
def ResourceState.dependers (m : ResourceStateMsg) (st : StaticVectors) :
    VecRef × StaticVectors :=
  let refilled := m.dependers.foldl (fun acc d => acc ++ [d]) []
  (VecRef.dependersRef, { st with dependers_vector := refilled })

/-! Thread engines, from `src/internal/runnable/thread_engines.cpp`. -/

/-- `runnable::LaunchOptions`: the declared parallelism of a runnable. -/
structure LaunchOptions where
  pe_count : Nat
  engines_per_pe : Nat
deriving DecidableEq, Repr

/-- `ThreadEngines::initialize_launchers` (thread_engines.cpp lines 36-56):
loops `for j in [0, pe_count)` adding one `ThreadEngine` launcher per
iteration; the commented-out block that would add `engines_per_pe` launchers
per cpu bit is not executed.  Each added launcher is represented by its
index. -/
def ThreadEngines.initialize_launchers (opts : LaunchOptions) : List Nat :=
  (List.range opts.pe_count).map fun j => j

/-! Concrete instances used to instantiate the theorems below. -/

/-- A concrete router: key is the parity of the item, conversion adds one. -/
def routerEx : Router Nat Nat Nat where
  keyFn := fun t => Except.ok (t % 2)
  convertFn := fun t => Except.ok (t + 1)

/-- A concrete edge map binding only key 0, whose `await_write` succeeds. -/
def edgesEx : Nat → Option (Nat → Status) :=
  fun k => if k = 0 then some (fun _ => Status.success) else none

/-- A concrete dynamic router component: identity key function, key 0 present
in `m_downstreams` and bound in the edge map. -/
def drcEx : DynamicRouterComponent Nat Nat where
  keyFn := fun t => Except.ok t
  downstreams := [0]
  edges := fun k => if k = 0 then some (fun _ => Status.success) else none

/-- Channels that are all empty. -/
def emptyChans (K U : Type) : Chans K U := fun _ => []

/-- A normalized state whose maps are all empty. -/
def stateEx : NormalizedState where
  executors := fun _ => none
  workers := fun _ => none
  pipeline_instances := fun _ => none
  segment_instances := fun _ => none

/-- A worker whose `executor_id` (5) is absent from `stateEx.executors`. -/
def workerEx : WorkerMsg where
  id := 1
  executor_id := 5
  assigned_segment_ids := []

/-- A concrete resource-state message. -/
def resourceMsgEx : ResourceStateMsg where
  requested_status := 1
  actual_status := 2
  dependees := [3]
  dependers := [4]

/-- A second resource-state message with different dependees. -/
def resourceMsgEx2 : ResourceStateMsg where
  requested_status := 1
  actual_status := 2
  dependees := [7, 8]
  dependers := [9]

/-! Theorems. -/

/-- C1: for every input item delivered to `Router::on_next` or
`StaticRouterBase::process_one`, either exactly one `await_write` is attempted
on the downstream selected by the computed key and its status is returned, or
`Status.error` is returned with no write attempted (never a silent drop); in
particular an unbound key yields `error`, and an exception thrown by the key
function or the convert function yields `error`. -/
theorem router_on_next_totality (r : Router K T U)
    (edges : K → Option (U → Status)) (keyFn : T → Except String K)
    (edgesS : K → Option (T → Status)) (data : T) :
    ((∃ key out wr, r.keyFn data = Except.ok key ∧
        r.convertFn data = Except.ok out ∧ edges key = some wr ∧
        r.on_next edges data = (wr out, [(key, out)])) ∨
      r.on_next edges data = (Status.error, [])) ∧
    (∀ key, r.keyFn data = Except.ok key → edges key = none →
      r.on_next edges data = (Status.error, [])) ∧
    (∀ e, r.keyFn data = Except.error e →
      r.on_next edges data = (Status.error, [])) ∧
    (∀ key e, r.keyFn data = Except.ok key →
      r.convertFn data = Except.error e →
      r.on_next edges data = (Status.error, [])) ∧
    ((∃ key wr, keyFn data = Except.ok key ∧ edgesS key = some wr ∧
        process_one keyFn edgesS data = (wr data, [(key, data)])) ∨
      process_one keyFn edgesS data = (Status.error, [])) ∧
    (∀ key, keyFn data = Except.ok key → edgesS key = none →
      process_one keyFn edgesS data = (Status.error, [])) ∧
    (∀ e, keyFn data = Except.error e →
      process_one keyFn edgesS data = (Status.error, [])) := by
  refine ⟨?_, ?_, ?_, ?_, ?_, ?_, ?_⟩
  · cases hk : r.keyFn data with
    | error e =>
      exact Or.inr (by simp [Router.on_next, hk])
    | ok key =>
      cases hc : r.convertFn data with
      | error e =>
        exact Or.inr (by simp [Router.on_next, hk, hc])
      | ok out =>
        cases he : edges key with
        | none =>
          exact Or.inr (by simp [Router.on_next, get_writable_edge, hk, hc, he])
        | some wr =>
          exact Or.inl ⟨key, out, wr, rfl, rfl, he, by
            simp [Router.on_next, get_writable_edge, hk, hc, he]⟩
  · intro key hk he
    cases hc : r.convertFn data <;>
      simp [Router.on_next, get_writable_edge, hk, hc, he]
  · intro e hk
    simp [Router.on_next, hk]
  · intro key e hk hc
    simp [Router.on_next, hk, hc]
  · cases hk : keyFn data with
    | error e =>
      exact Or.inr (by simp [process_one, hk])
    | ok key =>
      cases he : edgesS key with
      | none =>
        exact Or.inr (by simp [process_one, get_writable_edge, hk, he])
      | some wr =>
        exact Or.inl ⟨key, wr, rfl, he, by
          simp [process_one, get_writable_edge, hk, he]⟩
  · intro key hk he
    simp [process_one, get_writable_edge, hk, he]
  · intro e hk
    simp [process_one, hk]

/-- C1 witness: the totality theorem instantiated at `routerEx` / `edgesEx`
and the concrete item 3, whose key 1 has no bound downstream: both `on_next`
and `process_one` return `error` with no write attempted. -/
theorem router_on_next_totality_witness :
    routerEx.on_next edgesEx 3 = (Status.error, []) ∧
    process_one (fun t : Nat => Except.ok (t % 2)) edgesEx 3 =
      (Status.error, []) := by
  have h3 := router_on_next_totality routerEx edgesEx
    (fun t => Except.ok (t % 2)) edgesEx 3
  exact ⟨h3.2.1 1 rfl rfl, h3.2.2.2.2.2.1 1 rfl rfl⟩

/-- C2 counterexample: on `drcEx` the key 0 is bound (`has_source`), yet after
`drop_source(0)` an item with key 0 is still written successfully — the
downstream edge was not released, contradicting the claim that such items fail
with `error`. -/
theorem drop_source_keeps_edge_counterexample :
    drcEx.has_source 0 = true ∧
    ((drcEx.drop_source 0).on_next (emptyChans Nat Nat) 0).2 =
      Status.success := by
  exact ⟨rfl, rfl⟩

/-- C2 (amended): on `DynamicRouterComponent`, `drop_source(key)` removes only
the accessor entry of `m_downstreams` (the `release_writable_edge` call is
commented out): the edge map is unchanged and items for the removed key are
still forwarded with the downstream's `await_write` status; only on the
`RouterBase` dynamic routers does `drop_source` release the edge connection,
after which items computing to that key fail with `error`. -/
theorem dynamic_router_drop_source {K T : Type} [DecidableEq K] :
    (∀ (r : DynamicRouterComponent K T) (key : K),
      (r.drop_source key).edges = r.edges) ∧
    (∀ (r : DynamicRouterComponent K T) (key : K), r.downstreams.Nodup →
      (r.drop_source key).has_source key = false) ∧
    (∀ (r : DynamicRouterComponent K T) (key : K) (chans : Chans K T)
        (data : T) (wr : T → Status),
      r.keyFn data = Except.ok key → r.edges key = some wr →
      ((r.drop_source key).on_next chans data).2 = wr data) ∧
    (∀ (edges : K → Option (T → Status)) (key : K),
      release_edge_connection edges key key = none) ∧
    (∀ (edges : K → Option (T → Status)) (keyFn : T → Except String K)
        (key : K) (data : T),
      keyFn data = Except.ok key →
      process_one keyFn (release_edge_connection edges key) data =
        (Status.error, [])) := by
  refine ⟨fun r key => rfl, ?_, ?_, ?_, ?_⟩
  · intro r key hnd
    simp [DynamicRouterComponent.drop_source, DynamicRouterComponent.has_source,
      List.Nodup.not_mem_erase hnd]
  · intro r key chans data wr hk he
    simp [DynamicRouterComponent.drop_source, DynamicRouterComponent.on_next,
      hk, he]
  · intro edges key
    simp [release_edge_connection]
  · intro edges keyFn key data hk
    simp [process_one, get_writable_edge, release_edge_connection, hk]

/-- C2 witness: the amended theorem instantiated at `drcEx` and key 0: the
dropped component still forwards item 0 with `success`, while the
`RouterBase`-style release makes `process_one` return `error`. -/
theorem dynamic_router_drop_source_witness :
    (drcEx.drop_source 0).has_source 0 = false ∧
    ((drcEx.drop_source 0).on_next (emptyChans Nat Nat) 0).2 =
      (fun _ : Nat => Status.success) 0 ∧
    process_one (fun t : Nat => Except.ok t)
      (release_edge_connection drcEx.edges 0) 0 = (Status.error, []) := by
  have h := dynamic_router_drop_source (K := Nat) (T := Nat)
  exact ⟨h.2.1 drcEx 0 (by decide),
    h.2.2.1 drcEx 0 (emptyChans Nat Nat) 0 (fun _ => Status.success) rfl rfl,
    h.2.2.2.2 drcEx.edges (fun t => Except.ok t) 0 0 rfl⟩

/-- C3 counterexample: on `drcEx` (key set `{0}`), `get_source(1)` for the new
key 1 throws `std::out_of_range` from `m_downstreams.at` instead of returning
a downstream acceptor. -/
theorem dynamic_get_source_counterexample :
    drcEx.get_source 1 = Except.error "map::at" := by
  exact rfl

/-- C3 (amended): `RouterBase::get_source` returns a downstream acceptor for
any key, new keys included, and binding that acceptor adds the key to the
bound edge set without touching other keys; `DynamicRouterComponent`'s key set
is fixed at construction, and its `get_source(new_key)` throws
`std::out_of_range` for a key outside it. -/
theorem dynamic_router_get_source {K U : Type} [DecidableEq K] :
    (∀ key : K, routerBase_get_source key = Except.ok key) ∧
    (∀ (edges : K → Option (U → Status)) (key : K) (w : U → Status),
      make_edge_connection edges key w key = some w ∧
      ∀ j, j ≠ key → make_edge_connection edges key w j = edges j) ∧
    (∀ (r : DynamicRouterComponent K U) (key : K), key ∈ r.downstreams →
      r.get_source key = Except.ok key) ∧
    (∀ (r : DynamicRouterComponent K U) (key : K), key ∉ r.downstreams →
      r.get_source key = Except.error "map::at") := by
  refine ⟨fun key => rfl, ?_, ?_, ?_⟩
  · intro edges key w
    refine ⟨by simp [make_edge_connection], fun j hj => ?_⟩
    simp [make_edge_connection, hj]
  · intro r key hmem
    simp [DynamicRouterComponent.get_source, hmem]
  · intro r key hmem
    simp [DynamicRouterComponent.get_source, hmem]

/-- C3 witness: the amended theorem at concrete inputs: binding key 3 through
a `RouterBase` acceptor installs it, and `drcEx.get_source 1` throws for the
new key 1. -/
theorem dynamic_router_get_source_witness :
    routerBase_get_source (5 : Nat) = Except.ok 5 ∧
    make_edge_connection edgesEx 3 (fun _ => Status.success) 3 =
      some (fun _ => Status.success) ∧
    make_edge_connection edgesEx 3 (fun _ => Status.success) 0 = edgesEx 0 ∧
    drcEx.get_source 1 = Except.error "map::at" := by
  have h := dynamic_router_get_source (K := Nat) (U := Nat)
  exact ⟨h.1 5, (h.2.1 edgesEx 3 (fun _ => Status.success)).1,
    (h.2.1 edgesEx 3 (fun _ => Status.success)).2 0 (by decide),
    h.2.2.2 drcEx 1 (by decide)⟩

/-- Helper: `lookupAll` succeeds when every referenced id is present. -/
theorem lookupAll_ok (m : Nat → Option V) :
    ∀ ids : List Nat, (∀ i ∈ ids, m i ≠ none) →
      ∃ l, lookupAll m ids = Except.ok l := by
  intro ids
  induction ids with
  | nil => exact fun _ => ⟨[], rfl⟩
  | cons i rest ih =>
    intro hall
    cases hw : m i with
    | none => exact absurd hw (hall i (by simp))
    | some v =>
      rcases ih (fun j hj => hall j (List.mem_cons_of_mem _ hj)) with ⟨l, hl⟩
      exact ⟨(i, v) :: l, by simp [lookupAll, map_at_with_check, hw, hl]⟩

/-- Helper: `lookupAll` throws `out_of_range` when some referenced id is
missing. -/
theorem lookupAll_missing (m : Nat → Option V) :
    ∀ ids : List Nat, (∃ i ∈ ids, m i = none) →
      lookupAll m ids = Except.error Failure.outOfRange := by
  intro ids
  induction ids with
  | nil => rintro ⟨j, hj, _⟩; simp at hj
  | cons i rest ih =>
    rintro ⟨j, hj, hjm⟩
    rcases List.mem_cons.mp hj with rfl | hj2
    · simp [lookupAll, map_at_with_check, hjm]
    · cases hw : m i with
      | none => simp [lookupAll, map_at_with_check, hw]
      | some v =>
        simp [lookupAll, map_at_with_check, hw, ih ⟨j, hj2, hjm⟩]

/-- C4 counterexample: `workerEx.executor_id = 5` is missing from
`stateEx.executors`; `Worker::executor` propagates the `std::out_of_range`
thrown by `std::map::at` — a catchable exception, not an abort with a
diagnostic (the DCHECK variant of `MAP_AT_WITH_CHECK` is commented out). -/
theorem map_at_throws_counterexample :
    Worker.executor stateEx workerEx = Except.error Failure.outOfRange ∧
    exceptAborts (Worker.executor stateEx workerEx) = false := by
  exact ⟨rfl, rfl⟩

/-- C4 (amended): every cross-reference accessor checks each referenced id
against the map it indexes via `std::map::at`: a present id yields its entity
and a missing id throws `std::out_of_range` (never a silently fabricated
value), but the failure is a catchable exception rather than an abort with a
diagnostic. -/
theorem normalized_state_lookup_checked (s : NormalizedState) (w : WorkerMsg)
    (e : ExecutorMsg) (si : SegmentInstanceMsg) :
    (∀ ex, s.executors w.executor_id = some ex →
      Worker.executor s w = Except.ok ex) ∧
    (s.executors w.executor_id = none →
      Worker.executor s w = Except.error Failure.outOfRange) ∧
    exceptAborts (Worker.executor s w) = false ∧
    ((∃ l, Executor.workers s e = Except.ok l) ↔
      ∀ i ∈ e.worker_ids, s.workers i ≠ none) ∧
    (Executor.workers s e = Except.error Failure.outOfRange ↔
      ∃ i ∈ e.worker_ids, s.workers i = none) ∧
    (∀ pi, s.pipeline_instances si.pipeline_instance_id = some pi →
      SegmentInstance.pipeline_instance s si = Except.ok pi) ∧
    (s.pipeline_instances si.pipeline_instance_id = none →
      SegmentInstance.pipeline_instance s si = Except.error Failure.outOfRange) ∧
    (∀ wk, s.workers si.worker_id = some wk →
      SegmentInstance.worker s si = Except.ok wk) ∧
    (s.workers si.worker_id = none →
      SegmentInstance.worker s si = Except.error Failure.outOfRange) := by
  refine ⟨?_, ?_, ?_, ?_, ?_, ?_, ?_, ?_, ?_⟩
  · intro ex hex
    simp [Worker.executor, map_at_with_check, hex]
  · intro hex
    simp [Worker.executor, map_at_with_check, hex]
  · cases hex : s.executors w.executor_id <;>
      simp [Worker.executor, exceptAborts, map_at_with_check, hex]
  · constructor
    · intro hex
      by_contra hmiss
      push_neg at hmiss
      rcases hmiss with ⟨j, hj, hjm⟩
      rcases hex with ⟨l, hl⟩
      rw [show Executor.workers s e = lookupAll s.workers e.worker_ids from rfl,
        lookupAll_missing s.workers e.worker_ids ⟨j, hj, hjm⟩] at hl
      cases hl
    · intro hall
      exact lookupAll_ok s.workers e.worker_ids hall
  · constructor
    · intro herr
      by_contra hmiss
      push_neg at hmiss
      rcases lookupAll_ok s.workers e.worker_ids hmiss with ⟨l, hl⟩
      rw [show Executor.workers s e = lookupAll s.workers e.worker_ids from rfl,
        hl] at herr
      cases herr
    · intro h
      exact lookupAll_missing s.workers e.worker_ids h
  · intro pi hpi
    simp [SegmentInstance.pipeline_instance, map_at_with_check, hpi]
  · intro hpi
    simp [SegmentInstance.pipeline_instance, map_at_with_check, hpi]
  · intro wk hwk
    simp [SegmentInstance.worker, map_at_with_check, hwk]
  · intro hwk
    simp [SegmentInstance.worker, map_at_with_check, hwk]

/-- C4 witness: the amended theorem at `stateEx` / `workerEx` and an executor
whose single referenced worker id 9 is missing: the lookups throw
`out_of_range` and never abort. -/
theorem normalized_state_lookup_checked_witness :
    Worker.executor stateEx workerEx = Except.error Failure.outOfRange ∧
    Executor.workers stateEx ⟨1, [9], []⟩ = Except.error Failure.outOfRange ∧
    SegmentInstance.pipeline_instance stateEx ⟨1, 1, 7, 1⟩ =
      Except.error Failure.outOfRange := by
  have h := normalized_state_lookup_checked stateEx workerEx ⟨1, [9], []⟩
    ⟨1, 1, 7, 1⟩
  exact ⟨h.2.1 rfl, h.2.2.2.2.1.mpr ⟨9, by decide, rfl⟩,
    h.2.2.2.2.2.2.1 rfl⟩

/-- C5: evaluating `ThreadEngines::initialize_launchers` at the failing input
`pe_count = 2, engines_per_pe = 2`: the loop adds one launcher per PE, so only
2 engines are created — not the `pe_count × engines_per_pe = 4` distinct
engines that the claim (and the repository's own
`TestExecutor.LifeCycleSingleSegmentConcurrentSource` test, which expects 4
distinct engine ids at the sink) requires.  In general the factory creates
`pe_count` engines whatever `engines_per_pe` is. -/
theorem thread_engines_launcher_count :
    (ThreadEngines.initialize_launchers ⟨2, 2⟩).length = 2 ∧
    (ThreadEngines.initialize_launchers ⟨2, 2⟩).length ≠ 2 * 2 ∧
    ∀ opts : LaunchOptions,
      (ThreadEngines.initialize_launchers opts).length = opts.pe_count := by
  refine ⟨by decide, by decide, fun opts => ?_⟩
  simp [ThreadEngines.initialize_launchers]

/-- C6: the run loop of `StaticRouterRunnableBase::run` iterates only while
the stop token is unrequested, `await_read` returns `success`, and the
previous item's processing returned `success`; on exit every downstream edge
is released, and a fatal `MrcRuntimeError` is raised naming the read side if
the final read status is `error`, else the write side if the final write
status is `error`, and nothing otherwise. -/
theorem runnable_run_spec [DecidableEq K] (keyFn : T → Except String K)
    (edges : K → Option (T → Status)) (stop : Nat → Bool) (readS0 : Status)
    (reads : List (ReadEvent T)) :
    (∀ (i : Nat) (readS writeS : Status) (chans : Chans K T)
        (rs : List (ReadEvent T)), stop i = true →
      runLoop keyFn edges stop i readS writeS chans rs =
        (readS, writeS, chans)) ∧
    (∀ (i : Nat) (readS writeS : Status) (chans : Chans K T) (s : Status)
        (rest : List (ReadEvent T)), stop i = false →
      runLoop keyFn edges stop i readS writeS chans
          (ReadEvent.done s :: rest) = (s, writeS, chans)) ∧
    (∀ (i : Nat) (readS writeS : Status) (chans : Chans K T) (t : T)
        (rest : List (ReadEvent T)), stop i = false →
      writeS ≠ Status.success →
      runLoop keyFn edges stop i readS writeS chans
          (ReadEvent.item t :: rest) = (Status.success, writeS, chans)) ∧
    (∀ (i : Nat) (readS : Status) (chans : Chans K T) (t : T)
        (rest : List (ReadEvent T)), stop i = false →
      runLoop keyFn edges stop i readS Status.success chans
          (ReadEvent.item t :: rest) =
        runLoop keyFn edges stop (i + 1) Status.success
          (process_one_chans keyFn edges chans t).1
          (process_one_chans keyFn edges chans t).2 rest) ∧
    (∀ k, (StaticRouterRunnable.run keyFn edges stop readS0 reads).edgesAfter
      k = none) ∧
    ((StaticRouterRunnable.run keyFn edges stop readS0 reads).readStatus =
        Status.error →
      (StaticRouterRunnable.run keyFn edges stop readS0 reads).raised =
        some RunFailure.readFailed) ∧
    ((StaticRouterRunnable.run keyFn edges stop readS0 reads).readStatus ≠
        Status.error →
      (StaticRouterRunnable.run keyFn edges stop readS0 reads).writeStatus =
        Status.error →
      (StaticRouterRunnable.run keyFn edges stop readS0 reads).raised =
        some RunFailure.writeFailed) ∧
    ((StaticRouterRunnable.run keyFn edges stop readS0 reads).readStatus ≠
        Status.error →
      (StaticRouterRunnable.run keyFn edges stop readS0 reads).writeStatus ≠
        Status.error →
      (StaticRouterRunnable.run keyFn edges stop readS0 reads).raised =
        none) := by
  refine ⟨?_, ?_, ?_, ?_, fun k => rfl, ?_, ?_, ?_⟩
  · intro i readS writeS chans rs h
    cases rs with
    | nil => simp [runLoop, h]
    | cons ev rest => cases ev <;> simp [runLoop, h]
  · intro i readS writeS chans s rest h
    simp [runLoop, h]
  · intro i readS writeS chans t rest h hw
    simp [runLoop, h, hw]
  · intro i readS chans t rest h
    simp [runLoop, h]
  · intro hr
    simp only [StaticRouterRunnable.run] at hr ⊢
    simp [hr]
  · intro hr hw
    simp only [StaticRouterRunnable.run] at hr hw ⊢
    simp [hr, hw]
  · intro hr hw
    simp only [StaticRouterRunnable.run] at hr hw ⊢
    simp [hr, hw]

/-- C6 witness: the run-loop theorem instantiated at a concrete router (keys
are parities, only key 0 bound), a stop token requested from iteration 1 on,
and the upstream `[item 2]`: one item is processed, the loop then exits at the
stop check, the downstream edges are all released, and no error is raised. -/
theorem runnable_run_spec_witness :
    runLoop (fun t : Nat => Except.ok (t % 2)) edgesEx (fun i => Nat.ble 1 i)
        1 Status.success Status.success (emptyChans Nat Nat) [] =
      (Status.success, Status.success, emptyChans Nat Nat) ∧
    (StaticRouterRunnable.run (fun t : Nat => Except.ok (t % 2)) edgesEx
        (fun i => Nat.ble 1 i) Status.success
        [ReadEvent.item 2]).edgesAfter 0 = none ∧
    (StaticRouterRunnable.run (fun t : Nat => Except.ok (t % 2)) edgesEx
        (fun i => Nat.ble 1 i) Status.success
        [ReadEvent.item 2]).raised = none := by
  have h := runnable_run_spec (fun t : Nat => Except.ok (t % 2)) edgesEx
    (fun i => Nat.ble 1 i) Status.success [ReadEvent.item 2]
  exact ⟨h.1 1 Status.success Status.success (emptyChans Nat Nat) [] rfl,
    h.2.2.2.2.1 0, h.2.2.2.2.2.2.2 (by decide) (by decide)⟩

/-- C7: `on_state_update` leaves the stop token unchanged on `Stop` (drain
until upstream closure), sets it on `Kill`, and leaves it unchanged on every
other state; once the token is set, the run loop exits at its next check
returning the current statuses without reading. -/
theorem on_state_update_stop_token (b : Bool) :
    on_state_update b RunnableState.Stop = b ∧
    on_state_update b RunnableState.Kill = true ∧
    (∀ s : RunnableState, s ≠ RunnableState.Kill → on_state_update b s = b) ∧
    (∀ (K T : Type) (inst : DecidableEq K) (keyFn : T → Except String K)
        (edges : K → Option (T → Status)) (stop : Nat → Bool) (i : Nat)
        (readS writeS : Status) (chans : Chans K T)
        (reads : List (ReadEvent T)), stop i = true →
      runLoop keyFn edges stop i readS writeS chans reads =
        (readS, writeS, chans)) := by
  refine ⟨rfl, rfl, ?_, ?_⟩
  · intro s hs
    cases s <;> simp [on_state_update] at hs ⊢
  · intro K T inst keyFn edges stop i readS writeS chans reads h
    cases reads with
    | nil => simp [runLoop, h]
    | cons ev rest => cases ev <;> simp [runLoop, h]

/-- C7 witness: the theorem at `b = false`: `Stop` and `Running` leave the
token unset, `Kill` sets it, and a set token makes the loop exit immediately
on a non-empty upstream. -/
theorem on_state_update_stop_token_witness :
    on_state_update false RunnableState.Stop = false ∧
    on_state_update false RunnableState.Kill = true ∧
    on_state_update false RunnableState.Running = false ∧
    runLoop (fun t : Nat => Except.ok (t % 2)) edgesEx (fun _ => true) 0
        Status.success Status.success (emptyChans Nat Nat)
        [ReadEvent.item 2] =
      (Status.success, Status.success, emptyChans Nat Nat) := by
  have h := on_state_update_stop_token false
  exact ⟨h.1, h.2.1, h.2.2.1 RunnableState.Running (by decide),
    h.2.2.2 Nat Nat inferInstance (fun t => Except.ok (t % 2)) edgesEx
      (fun _ => true) 0 Status.success Status.success (emptyChans Nat Nat)
      [ReadEvent.item 2] rfl⟩

/-- C8: on a `TaggedRouter` the key of every input pair is its first
component, the forwarded value is its second component (the conversion drops
the key), and when every input key is bound, each downstream observes exactly
the second components of the inputs carrying its key, in order — items for
key `k` arrive only on downstream `d_k`. -/
theorem tagged_router_dispatch {K T : Type} [DecidableEq K] :
    (∀ d : K × T, (taggedRouter K T).keyFn d = Except.ok d.1) ∧
    (∀ d : K × T, (taggedRouter K T).convertFn d = Except.ok d.2) ∧
    (∀ (bound : List K) (inputs : List (K × T)) (chans : Chans K T) (k : K),
      (∀ d ∈ inputs, d.1 ∈ bound) →
      Router.runList (taggedRouter K T) bound chans inputs k =
        chans k ++ (inputs.filter (fun d => d.1 = k)).map Prod.snd) := by
  refine ⟨fun d => rfl, fun d => rfl, ?_⟩
  intro bound inputs
  induction inputs with
  | nil => intro chans k h; simp [Router.runList]
  | cons d rest ih =>
    intro chans k h
    have hd : d.1 ∈ bound := h d (by simp)
    have hrest : ∀ x ∈ rest, x.1 ∈ bound := fun x hx =>
      h x (List.mem_cons_of_mem _ hx)
    have hstep : ((taggedRouter K T).step bound chans d).1 =
        chanWrite chans d.1 d.2 := by
      simp [Router.step, taggedRouter, hd]
    rw [Router.runList, hstep, ih (chanWrite chans d.1 d.2) k hrest]
    by_cases hk : d.1 = k
    · subst hk
      simp [chanWrite, List.filter_cons, List.append_assoc]
    · simp [chanWrite, hk, List.filter_cons, Ne.symm hk]

/-- C8 witness: the dispatch theorem at the spec's scenario: a static router
over keys `{"a","b"}` receiving `[("a",1),("b",2),("a",3)]` through a
`TaggedRouter` delivers `[1,3]` on downstream `a` and `[2]` on downstream
`b`. -/
theorem tagged_router_dispatch_witness :
    Router.runList (taggedRouter String Nat) ["a", "b"]
        (emptyChans String Nat) [("a", 1), ("b", 2), ("a", 3)] "a" =
      [1, 3] ∧
    Router.runList (taggedRouter String Nat) ["a", "b"]
        (emptyChans String Nat) [("a", 1), ("b", 2), ("a", 3)] "b" =
      [2] := by
  have h := (tagged_router_dispatch (K := String) (T := Nat)).2.2 ["a", "b"]
    [("a", 1), ("b", 2), ("a", 3)] (emptyChans String Nat)
  exact ⟨(h "a" (by decide)).trans (by decide),
    (h "b" (by decide)).trans (by decide)⟩

/-- C9: `ControlPlaneStateBase::operator==` holds exactly when the two
underlying protobuf messages are structurally (field-by-field) equal; in
particular two distinct wrapper objects over field-identical messages compare
equal, so equality is not object identity. -/
theorem operator_eq_structural (a b : StateWrapper) :
    (ControlPlaneStateBase.operatorEq a b = true ↔
      a.m_internal_message = b.m_internal_message) ∧
    (∃ x y : StateWrapper, x ≠ y ∧ x.objId ≠ y.objId ∧
      ControlPlaneStateBase.operatorEq x y = true) := by
  constructor
  · cases a with
    | mk aid am =>
      cases b with
      | mk bid bm =>
        cases am
        cases bm
        simp [ControlPlaneStateBase.operatorEq, messageDifferencerEquals,
          and_assoc]
  · exact ⟨⟨1, resourceMsgEx⟩, ⟨2, resourceMsgEx⟩, by decide, by decide,
      by decide⟩

/-- C9 witness: the equivalence applied to two wrappers with distinct object
ids over the same message: they compare equal. -/
theorem operator_eq_structural_witness :
    ControlPlaneStateBase.operatorEq ⟨1, resourceMsgEx⟩ ⟨2, resourceMsgEx⟩ =
      true := by
  exact (operator_eq_structural ⟨1, resourceMsgEx⟩ ⟨2, resourceMsgEx⟩).1.mpr
    rfl

/-- Helper: pushing every element of a list onto an accumulator is appending
the list. -/
theorem foldl_push_eq_append (l acc : List Nat) :
    l.foldl (fun a d => a ++ [d]) acc = acc ++ l := by
  induction l generalizing acc with
  | nil => simp
  | cons x xs ih => simp [List.foldl_cons, ih]

/-- C10: `ResourceState::dependees` (and `dependers`) clears and refills one
function-local static vector and returns a reference to it: calls on any two
objects return references aliasing the same storage; each call leaves the
storage holding exactly the calling object's message entries; and a later
call on another object overwrites the contents an earlier returned reference
observes. -/
theorem resource_state_static_aliasing (m1 m2 : ResourceStateMsg)
    (st st2 : StaticVectors) :
    (ResourceState.dependees m1 st).1 = (ResourceState.dependees m2 st2).1 ∧
    (ResourceState.dependers m1 st).1 = (ResourceState.dependers m2 st2).1 ∧
    readRef (ResourceState.dependees m1 st).2
      (ResourceState.dependees m1 st).1 = m1.dependees ∧
    readRef (ResourceState.dependers m1 st).2
      (ResourceState.dependers m1 st).1 = m1.dependers ∧
    readRef (ResourceState.dependees m2 (ResourceState.dependees m1 st).2).2
      (ResourceState.dependees m1 st).1 = m2.dependees ∧
    (m1.dependees ≠ m2.dependees →
      readRef (ResourceState.dependees m2
          (ResourceState.dependees m1 st).2).2
        (ResourceState.dependees m1 st).1 ≠ m1.dependees) := by
  refine ⟨rfl, rfl, ?_, ?_, ?_, ?_⟩
  · simp [ResourceState.dependees, readRef, foldl_push_eq_append]
  · simp [ResourceState.dependers, readRef, foldl_push_eq_append]
  · simp [ResourceState.dependees, readRef, foldl_push_eq_append]
  · intro hne
    simp [ResourceState.dependees, readRef, foldl_push_eq_append]
    exact fun hc => hne hc.symm

/-- C10 witness: the aliasing theorem at `resourceMsgEx` (dependees `[3]`)
and `resourceMsgEx2` (dependees `[7,8]`): after the second call, the first
call's reference observes `[7,8]`, no longer `[3]`. -/
theorem resource_state_static_aliasing_witness :
    readRef (ResourceState.dependees resourceMsgEx2
        (ResourceState.dependees resourceMsgEx ⟨[], []⟩).2).2
      (ResourceState.dependees resourceMsgEx ⟨[], []⟩).1 = [7, 8] ∧
    readRef (ResourceState.dependees resourceMsgEx2
        (ResourceState.dependees resourceMsgEx ⟨[], []⟩).2).2
      (ResourceState.dependees resourceMsgEx ⟨[], []⟩).1 ≠ [3] := by
  have h := resource_state_static_aliasing resourceMsgEx resourceMsgEx2
    ⟨[], []⟩ ⟨[], []⟩
  exact ⟨h.2.2.2.2.1, h.2.2.2.2.2 (by decide)⟩

end Mrc
